import Mathlib

/-!
Verification development for the Discord-to-web chat bridge (`server.js`).

The definitions below are a shallow embedding of the bridge's state and
operations: the bounded in-memory message history, the typing-user table,
the presence flags, and the HTTP handlers (`/api/messages`, `/api/typing`,
`/api/purge-bot-messages`, `/api/send`), together with the message
normalization performed on inbound Discord events and on the startup
history fetch (media extraction, source classification, username
unwrapping, reply resolution).

Timestamps are modelled as natural numbers (milliseconds, as produced by
`Date.now()`), JS strings as `String`, JS `Map` as an insertion-ordered
association list, and absent/null JS values as `Option`.  External
effects (Discord channel fetch, message fetch, message send) are modelled
by explicit oracle parameters telling the handler whether the call
succeeded.
-/

namespace Bridge

/-- MAX_MESSAGES constant (server.js line 20). -/
def MAX_MESSAGES : Nat := 100

/-- TYPING_TIMEOUT constant in milliseconds (server.js line 24). -/
def TYPING_TIMEOUT : Nat := 5000

/-- PRESENCE_TIMEOUT constant in milliseconds (server.js line 29). -/
def PRESENCE_TIMEOUT : Nat := 15000

/-- Presence poll interval in milliseconds (server.js line 64). -/
def POLL_INTERVAL : Nat := 10000

/-- Initial value of the `isOnline` flag (server.js line 28). -/
def initialIsOnline : Bool := false

/-- Environment configuration read from `process.env`. -/
structure Config where
  botClientId : String
  chatPassword : String
  channelId : String
  deriving Repr, DecidableEq

/-- One extracted media entry `{url, type, filename}`. -/
structure MediaRef where
  url : String
  type : String
  filename : String
  deriving Repr, DecidableEq

/-- The embedded `replyTo` record `{id, author, content, timestamp}`. -/
structure ReplyRef where
  id : String
  author : String
  content : String
  timestamp : String
  deriving Repr, DecidableEq

/-- A normalized message record held in the in-memory history. -/
structure MessageRecord where
  id : String
  author : String
  content : String
  timestamp : String
  source : String
  isBot : Bool
  media : List MediaRef
  replyTo : Option ReplyRef
  deriving Repr, DecidableEq

/-- A Discord message author as seen by the bridge. -/
structure Author where
  id : String
  username : String
  bot : Bool
  deriving Repr, DecidableEq

/-- A Discord attachment: content type (possibly absent), URL, file name. -/
structure Attachment where
  contentType : Option String
  url : String
  name : String
  deriving Repr, DecidableEq

/-- The image or thumbnail slot of a Discord embed. -/
structure EmbedImage where
  url : String
  deriving Repr, DecidableEq

/-- A Discord embed with optional image and thumbnail. -/
structure Embed where
  image : Option EmbedImage
  thumbnail : Option EmbedImage
  deriving Repr, DecidableEq

/-- A raw Discord message as delivered by the gateway or a history fetch. -/
structure RawMessage where
  id : String
  author : Author
  content : String
  createdAtISO : String
  attachments : List Attachment
  embeds : List Embed
  webhookId : Option String
  referenceMessageId : Option String
  deriving Repr, DecidableEq

/-- JS `String.prototype.startsWith`, computed on character lists. -/
def strStartsWith (s p : String) : Bool :=
  p.toList.isPrefixOf s.toList

/-- JS truthiness of an optional string: present and non-empty. -/
def truthyOpt (o : Option String) : Bool :=
  match o with
  | some s => s ≠ ""
  | none => false

/-- JS `username || dflt`: the fallback fires on an absent or empty string. -/
def jsOrElse (u : Option String) (dflt : String) : String :=
  match u with
  | none => dflt
  | some s => if s = "" then dflt else s

/-- In-memory server state: history, typing table, presence bookkeeping. -/
structure ServerState where
  messages : List MessageRecord
  typingUsers : List (String × Nat)
  lastApiRequest : Nat
  isOnline : Bool
  deriving Repr, DecidableEq

/-- JS `Map.set`: update an existing key in place, else append at the end. -/
def mapSet (m : List (String × Nat)) (k : String) (v : Nat) : List (String × Nat) :=
  if m.any (fun p => p.1 == k) then
    m.map (fun p => if p.1 == k then (k, v) else p)
  else
    m ++ [(k, v)]

/-- JS `Map.delete`: remove the entry for a key. -/
def mapDelete (m : List (String × Nat)) (k : String) : List (String × Nat) :=
  m.filter (fun p => p.1 != k)

/-- JS `Map.get`: the value stored under a key, if any. -/
def mapGet (m : List (String × Nat)) (k : String) : Option Nat :=
  (m.find? (fun p => p.1 == k)).map (fun p => p.2)

/-- JS `Array.prototype.slice(-n)`: the last `n` elements in order. -/
def sliceLast (n : Nat) (l : List MessageRecord) : List MessageRecord :=
  l.drop (l.length - n)

/-- Push a record and truncate to the last `MAX_MESSAGES`
(server.js lines 400-405 and 595-600). -/
def appendMessage (msgs : List MessageRecord) (m : MessageRecord) : List MessageRecord :=
  let l := msgs ++ [m]
  if l.length > MAX_MESSAGES then sliceLast MAX_MESSAGES l else l

/-- The backward purge loop (server.js lines 503-509), expressed on the
reversed history: walk newest-first, removing bot-flagged entries until
the budget `n` is exhausted, returning the kept entries and the count
removed. -/
def removeBots : Nat → List MessageRecord → List MessageRecord × Nat
  | _, [] => ([], 0)
  | 0, l => (l, 0)
  | n + 1, m :: rest =>
    if m.isBot then
      let (l, c) := removeBots n rest
      (l, c + 1)
    else
      let (l, c) := removeBots (n + 1) rest
      (m :: l, c)

/-- Purge up to 100 bot messages, scanning from newest to oldest
(server.js lines 499-516). -/
def purgeBotMessages (msgs : List MessageRecord) : List MessageRecord × Nat :=
  let (r, c) := removeBots 100 msgs.reverse
  (r.reverse, c)

/-- Responses produced by the API handlers, identified by shape. -/
inductive ApiResponse
  | ok
  | snapshot (msgs : List MessageRecord) (typing : List String)
  | purged (removedCount : Nat)
  | error (status : Nat)
  deriving Repr, DecidableEq

/-- The active-typing sweep of `/api/messages` (server.js lines 434-443):
entries younger than 5000 ms survive, all others are deleted. -/
def sweepTyping (m : List (String × Nat)) (now : Nat) : List (String × Nat) :=
  m.filter (fun p => decide (now - p.2 < 5000))

/-- The usernames reported as typing by `/api/messages`. -/
def sweepActive (m : List (String × Nat)) (now : Nat) : List String :=
  (sweepTyping m now).map (fun p => p.1)

/-- Handler for POST `/api/messages` (server.js lines 424-449). -/
def handleMessages (cfg : Config) (password : String) (now : Nat)
    (st : ServerState) : ServerState × ApiResponse :=
  if password ≠ cfg.chatPassword then
    (st, .error 401)
  else
    let st' := { st with
      lastApiRequest := now,
      typingUsers := sweepTyping st.typingUsers now }
    (st', .snapshot st.messages (sweepActive st.typingUsers now))

/-- Handler for POST `/api/typing` (server.js lines 452-487), excluding the
scheduled expiry callback, which is `typingTimerFire` below. -/
def handleTyping (cfg : Config) (username : Option String) (password : String)
    (isTyping : Bool) (now : Nat) (st : ServerState) : ServerState × ApiResponse :=
  if password ≠ cfg.chatPassword then
    (st, .error 401)
  else
    let user := jsOrElse username ("elianka")
    if isTyping then
      ({ st with typingUsers := mapSet st.typingUsers user now }, .ok)
    else
      ({ st with typingUsers := mapDelete st.typingUsers user }, .ok)

/-- The `setTimeout` expiry callback scheduled by `/api/typing`
(server.js lines 471-476): delete the entry only when it still exists,
is truthy, and has not been refreshed within the tolerance window. -/
def typingTimerFire (user : String) (fireNow : Nat) (st : ServerState) : ServerState :=
  match mapGet st.typingUsers user with
  | none => st
  | some ts =>
    if ts ≠ 0 ∧ fireNow - ts ≥ TYPING_TIMEOUT - 100 then
      { st with typingUsers := mapDelete st.typingUsers user }
    else
      st

/-- Handler for POST `/api/purge-bot-messages` (server.js lines 490-521). -/
def handlePurge (cfg : Config) (password : String) (st : ServerState) :
    ServerState × ApiResponse :=
  if password ≠ cfg.chatPassword then
    (st, .error 401)
  else
    let (msgs', c) := purgeBotMessages st.messages
    ({ st with messages := msgs' }, .purged c)

/-- The presence poller `updateBotPresence` (server.js lines 32-61): on a
ready client, compare the derived state against the current flag and issue
a status change only on a transition. -/
inductive PresenceAction
  | setOnline
  | setDnd
  deriving Repr, DecidableEq

/-- One execution of the presence poll. -/
def updateBotPresence (clientReady : Bool) (now : Nat) (st : ServerState) :
    ServerState × Option PresenceAction :=
  if ¬ clientReady then
    (st, none)
  else
    let timeSince := now - st.lastApiRequest
    if timeSince < PRESENCE_TIMEOUT ∧ ¬ st.isOnline then
      ({ st with isOnline := true }, some .setOnline)
    else if timeSince ≥ PRESENCE_TIMEOUT ∧ st.isOnline then
      ({ st with isOnline := false }, some .setDnd)
    else
      (st, none)

/-- The set matched by the JS regex class `\s`. -/
def isJsSpace (c : Char) : Bool :=
  c == ' ' || c == '\t' || c == '\n' || c == '\r' ||
  c.val == 11 || c.val == 12 || c.val == 0xa0 || c.val == 0x1680 ||
  (0x2000 ≤ c.val && c.val ≤ 0x200a) ||
  c.val == 0x2028 || c.val == 0x2029 || c.val == 0x202f ||
  c.val == 0x205f || c.val == 0x3000 || c.val == 0xfeff

/-- JS `String.prototype.trim`. -/
def jsTrim (s : String) : String :=
  String.mk (((s.toList.dropWhile isJsSpace).reverse.dropWhile isJsSpace).reverse)

/-- Case-insensitive literal match: the pattern (given in lower case)
against the front of the input, returning the remaining input. -/
def stripCI : List Char → List Char → Option (List Char)
  | [], cs => some cs
  | _ :: _, [] => none
  | p :: ps, c :: cs => if c.toLower == p then stripCI ps cs else none

/-- The alternatives of the image-extension group of the URL regex
(server.js line 333), in source order. -/
def imageExts : List (List Char) :=
  [['j', 'p', 'g'], ['j', 'p', 'e', 'g'], ['p', 'n', 'g'], ['g', 'i', 'f'],
   ['w', 'e', 'b', 'p'], ['b', 'm', 'p'], ['s', 'v', 'g']]

/-- Try the extension alternation at the front of the input, returning the
length of the first alternative that matches. -/
def tryExt (cs : List Char) : Option Nat :=
  imageExts.findSome? (fun e =>
    match stripCI e cs with
    | some _ => some e.length
    | none => none)

/-- Backtracking of the greedy `[^\s]+` of the URL regex: find the largest
dot position `p ≥ 1` inside the non-space run such that an extension
alternative matches right after the dot.  Returns the dot position and the
matched extension length. -/
def findSplit (run : List Char) : Nat → Option (Nat × Nat)
  | 0 => none
  | p + 1 =>
    match (match run.get? (p + 1) with
           | some '.' => (tryExt (run.drop (p + 2))).map (fun el => (p + 1, el))
           | _ => none) with
    | some r => some r
    | none => findSplit run p

/-- Match the regex `(https?:\/\/[^\s]+\.(jpg|jpeg|png|gif|webp|bmp|svg))`
(flags `gi`) anchored at the front of the input, returning the length of
the match. -/
def matchUrlAt (cs : List Char) : Option Nat :=
  match stripCI ['h', 't', 't', 'p'] cs with
  | none => none
  | some r1 =>
    match stripCI ['s', ':', '/', '/'] r1 with
    | some r2 =>
      let run := r2.takeWhile (fun c => !(isJsSpace c))
      (findSplit run (run.length - 1)).map (fun pr => 8 + pr.1 + 1 + pr.2)
    | none =>
      match stripCI [':', '/', '/'] r1 with
      | some r2 =>
        let run := r2.takeWhile (fun c => !(isJsSpace c))
        (findSplit run (run.length - 1)).map (fun pr => 7 + pr.1 + 1 + pr.2)
      | none => none

/-- The global scan of `content.match(urlRegex)`: walk the input, emitting
each match and resuming after its end.  The fuel argument bounds the
recursion by the input length. -/
def scanUrlsAux : Nat → List Char → List String
  | 0, _ => []
  | _, [] => []
  | fuel + 1, c :: cs =>
    match matchUrlAt (c :: cs) with
    | some len => String.mk ((c :: cs).take len) :: scanUrlsAux fuel ((c :: cs).drop len)
    | none => scanUrlsAux fuel cs

/-- All image-URL matches found in a message body. -/
def scanUrls (content : String) : List String :=
  scanUrlsAux content.length content.toList

/-- Media entries contributed by attachments (server.js lines 300-310):
only attachments whose content type starts with `image/` count. -/
def attachmentMedia (atts : List Attachment) : List MediaRef :=
  atts.filterMap (fun a =>
    match a.contentType with
    | some ct =>
      if strStartsWith ct ("image/") then
        some { url := a.url, type := "image", filename := a.name }
      else
        none
    | none => none)

/-- Media entries contributed by embeds (server.js lines 313-330): for each
embed, its image first, then its thumbnail. -/
def embedMedia (embeds : List Embed) : List MediaRef :=
  embeds.flatMap (fun e =>
    (match e.image with
     | some i => [{ url := i.url, type := "image", filename := "embedded_image" }]
     | none => []) ++
    (match e.thumbnail with
     | some t => [{ url := t.url, type := "image", filename := "thumbnail" }]
     | none => []))

/-- Media entries contributed by bare image URLs in the body text
(server.js lines 333-343). -/
def urlMedia (content : String) : List MediaRef :=
  (scanUrls content).map (fun u =>
    { url := u, type := "image", filename := "linked_image" })

/-- Full media extraction: attachments, then embeds, then body-text
matches, appended in that order with no de-duplication. -/
def extractMedia (msg : RawMessage) : List MediaRef :=
  attachmentMedia msg.attachments ++ embedMedia msg.embeds ++ urlMedia msg.content

/-- Source/bot classification (server.js lines 345-356): a bot author with
a truthy webhook id is a `Webhook`, a bot author without one is a `Bot`,
anyone else is `Discord`. -/
def classifySource (a : Author) (webhookId : Option String) : String × Bool :=
  if a.bot then
    if truthyOpt webhookId then ("Webhook", true) else ("Bot", true)
  else
    ("Discord", false)

/-- JS `String.prototype.includes` on the character list of a string. -/
def includesAux (sub : List Char) : List Char → Bool
  | [] => sub.isEmpty
  | c :: cs => sub.isPrefixOf (c :: cs) || includesAux sub cs

/-- JS `content.includes(sub)`. -/
def strIncludes (s sub : String) : Bool :=
  includesAux sub.toList s.toList

/-- The characters the JS `.` metacharacter (without the `s` flag) does
not match: the line terminators `\n`, `\r`, U+2028 and U+2029. -/
def isJsDotExcluded (c : Char) : Bool :=
  c == '\n' || c == '\r' || c.val == 0x2028 || c.val == 0x2029

/-- The tail pattern `(.+)$` of the top-level unwrap regex, without the
`m` flag: `$` asserts the very end of the input, so the capture is the
whole remainder exactly when it is non-empty and free of line
terminators. -/
def dotPlusDollar (t : List Char) : Option (List Char) :=
  if t ≠ [] ∧ t.all (fun c => !(isJsDotExcluded c)) then some t else none

/-- The backtracking body of `/^\*\*(.+?)\*\*: (.+)$/`: grow the lazy group
one character at a time (never across a line terminator) until the
literal `**: ` and a successful tail match follow. -/
def goSplit : List Char → List Char → Option (List Char × List Char)
  | _, [] => none
  | acc, c :: cs =>
    if isJsDotExcluded c then none
    else
      match cs with
      | '*' :: '*' :: ':' :: ' ' :: rest =>
        match dotPlusDollar rest with
        | some cap => some (acc ++ [c], cap)
        | none => goSplit (acc ++ [c]) cs
      | _ => goSplit (acc ++ [c]) cs

/-- Match `/^\*\*(.+?)\*\*: (.+)$/` (server.js line 233), returning the
two captures. -/
def webFormatMatch (content : String) : Option (String × String) :=
  match content.toList with
  | '*' :: '*' :: rest =>
    match goSplit [] rest with
    | some (n, r) => some (String.mk n, String.mk r)
    | none => none
  | _ => none

/-- Normalization used by the startup history fetch
(server.js lines 164-251): classify the source, then, when the author is
the bridge's own bot and the content carries the web wrapper, unwrap the
original username and content and reclassify as a `Web` message. -/
def normalizeHistory (cfg : Config) (msg : RawMessage) : MessageRecord :=
  let sb := classifySource msg.author msg.webhookId
  let quad :=
    if msg.author.id = cfg.botClientId ∧ strStartsWith msg.content ("**") ∧
        strIncludes msg.content ("**: ") then
      match webFormatMatch msg.content with
      | some (n, r) => (n, r, "Web", false)
      | none => (msg.author.username, msg.content, sb.1, sb.2)
    else
      (msg.author.username, msg.content, sb.1, sb.2)
  { id := msg.id
    author := quad.1
    content := quad.2.1
    timestamp := msg.createdAtISO
    source := quad.2.2.1
    isBot := quad.2.2.2
    media := extractMedia msg
    replyTo := none }

/-- Match `/^\*\*([^*]+)\*\*: (.*)/` (server.js line 369), the pattern used
when unwrapping a referenced message: a non-empty star-free group (the
class `[^*]` matches line terminators too), the literal `**: `, then an
unanchored, possibly empty capture of `.` characters, which stops at the
first line terminator. -/
def replyRegexMatch (content : String) : Option (String × String) :=
  match content.toList with
  | '*' :: '*' :: rest =>
    let nm := rest.takeWhile (fun c => c ≠ '*')
    let after := rest.dropWhile (fun c => c ≠ '*')
    if nm.isEmpty then
      none
    else
      match after with
      | '*' :: '*' :: ':' :: ' ' :: tail =>
        some (String.mk nm, String.mk (tail.takeWhile (fun c => !(isJsDotExcluded c))))
      | _ => none
  | _ => none

/-- Unwrap applied to a referenced message (server.js lines 364-374): fires
when the referenced author is bot-flagged and the content starts with
`**` and matches the reply pattern. -/
def unwrapReplyRef (ref : RawMessage) : String × String :=
  if ref.author.bot ∧ strStartsWith ref.content ("**") then
    match replyRegexMatch ref.content with
    | some (n, r) => (n, r)
    | none => (ref.author.username, ref.content)
  else
    (ref.author.username, ref.content)

/-- Build the `replyTo` record from the outcome of the referenced-message
fetch (server.js lines 359-386); a failed fetch yields `none`. -/
def buildReplyTo (fetched : Option RawMessage) : Option ReplyRef :=
  match fetched with
  | none => none
  | some ref =>
    some { id := ref.id
           author := (unwrapReplyRef ref).1
           content := (unwrapReplyRef ref).2
           timestamp := ref.createdAtISO }

/-- Normalization of an inbound gateway message (server.js lines 284-398):
the bridge's own messages are skipped entirely; otherwise the record keeps
the raw author and content, stamps the current time, and resolves the
reply reference when one is present. -/
def normalizeInbound (cfg : Config) (msg : RawMessage)
    (fetchedRef : Option RawMessage) (nowISO : String) : Option MessageRecord :=
  if msg.author.id = cfg.botClientId then
    none
  else
    let sb := classifySource msg.author msg.webhookId
    let replyTo :=
      if truthyOpt msg.referenceMessageId then buildReplyTo fetchedRef else none
    some { id := msg.id
           author := msg.author.username
           content := msg.content
           timestamp := nowISO
           source := sb.1
           isBot := sb.2
           media := extractMedia msg
           replyTo := replyTo }

/-- The full inbound `messageCreate` step: append the normalized record to
the history (with truncation), or leave the state unchanged when the event
is skipped. -/
def applyInbound (cfg : Config) (msg : RawMessage) (fetchedRef : Option RawMessage)
    (nowISO : String) (st : ServerState) : ServerState :=
  match normalizeInbound cfg msg fetchedRef nowISO with
  | none => st
  | some r => { st with messages := appendMessage st.messages r }

/-- Outbound text of a web send: `**<author>**: <content>`
(server.js line 556). -/
def composeOutbound (username : Option String) (message : String) : String :=
  "**" ++ jsOrElse username ("elianka") ++ "**: " ++ message

/-- UTF-16 width of one character: astral-plane characters occupy two
code units, everything else one. -/
def charUtf16Len (c : Char) : Nat :=
  if c.val < 0x10000 then 1 else 2

/-- JS `String.prototype.length`: the number of UTF-16 code units. -/
def strUtf16Len (s : String) : Nat :=
  (s.toList.map charUtf16Len).sum

/-- JS `substring(0, n)` measured in UTF-16 code units, keeping whole
characters.  When the cut falls inside a surrogate pair JS keeps the lone
high surrogate, which has no scalar-value representation, so the model
stops just before that pair; theorems about the truncation exclude that
boundary case by hypothesis. -/
def takeUnits : Nat → List Char → List Char
  | 0, _ => []
  | _, [] => []
  | n + 1, c :: cs =>
    if charUtf16Len c ≤ n + 1 then c :: takeUnits (n + 1 - charUtf16Len c) cs
    else []

/-- The quoted reply text, truncated to the first 100 UTF-16 code units
with an ellipsis appended exactly when the content is longer than 100
code units (server.js line 573). -/
def truncQuote (s : String) : String :=
  String.mk (takeUnits 100 s.toList) ++ (if strUtf16Len s > 100 then ("...") else (""))

/-- The inline quoted-text fallback used when the referenced message cannot
be fetched (server.js lines 573-574). -/
def fallbackContent (username : Option String) (r : ReplyRef) (message : String) : String :=
  "**" ++ jsOrElse username ("elianka") ++ "** replying to **" ++ r.author ++
    "**: \"" ++ truncQuote r.content ++ "\"\n" ++ message

/-- Result of one `/api/send` request: the post-state, the HTTP response,
and what was delivered to Discord (content and attached reply reference),
`none` when nothing was delivered. -/
structure SendOutcome where
  state : ServerState
  response : ApiResponse
  outboundContent : Option String
  outboundReplyRef : Option String
  deriving Repr, DecidableEq

/-- Handler for POST `/api/send` (server.js lines 524-609).  The oracle
flags report whether the destination channel resolved, whether the
referenced message of `replyTo` could be fetched, and whether the Discord
send itself succeeded. -/
def handleSend (cfg : Config) (message : Option String) (username : Option String)
    (password : String) (replyTo : Option ReplyRef)
    (channelOk replyFetchOk sendOk : Bool) (now : Nat) (nowISO : String)
    (st : ServerState) : SendOutcome :=
  if password ≠ cfg.chatPassword then
    ⟨st, .error 401, none, none⟩
  else
    match message with
    | none => ⟨st, .error 400, none, none⟩
    | some msg =>
      if jsTrim msg = "" then
        ⟨st, .error 400, none, none⟩
      else if ¬ channelOk then
        ⟨st, .error 404, none, none⟩
      else
        let user := jsOrElse username ("elianka")
        let pair :=
          match replyTo with
          | some r =>
            if r.id ≠ "" then
              if replyFetchOk then
                (composeOutbound username msg, some r.id)
              else
                (fallbackContent username r msg, none)
            else
              (composeOutbound username msg, none)
          | none => (composeOutbound username msg, none)
        if ¬ sendOk then
          ⟨st, .error 500, none, none⟩
        else
          let rcd : MessageRecord :=
            { id := toString now
              author := user
              content := msg
              timestamp := nowISO
              source := "Web"
              isBot := false
              media := []
              replyTo := replyTo }
          let st' := { st with
            typingUsers := mapDelete st.typingUsers user,
            messages := appendMessage st.messages rcd }
          ⟨st', .ok, some pair.1, pair.2⟩

/-- Records used in concrete witnesses. -/
def wRec (i : Nat) : MessageRecord :=
  { id := toString i
    author := "u"
    content := "c"
    timestamp := "t"
    source := "Discord"
    isBot := false
    media := []
    replyTo := none }

/-- A sequence of 101 appends, one more than the bound. -/
def wMsgs : List MessageRecord :=
  (List.range 101).map wRec

/-- A bot-flagged record variant for witnesses. -/
def wBotRec (i : Nat) : MessageRecord :=
  { wRec i with isBot := true, source := "Bot" }

/-- A concrete configuration for witnesses. -/
def wCfg : Config :=
  { botClientId := "botid", chatPassword := "pw", channelId := "chan" }

/-- A concrete server state for witnesses. -/
def wSt : ServerState :=
  { messages := [wRec 0, wBotRec 1, wRec 2, wBotRec 3]
    typingUsers := [("alice", 1000), ("bob", 7000)]
    lastApiRequest := 1000
    isOnline := false }

/-- The concrete inbound message of the media-extraction scenario: one
image attachment, one embed bearing a thumbnail, and a body text holding
an image URL. -/
def mediaMsg : RawMessage :=
  { id := "m1"
    author := { id := "user1", username := "dana", bot := false }
    content := "see https://x.com/a.png now"
    createdAtISO := "t1"
    attachments := [{ contentType := some ("image/png"),
                      url := "https://cdn/att.png", name := "att.png" }]
    embeds := [{ image := none, thumbnail := some { url := "https://emb/t.png" } }]
    webhookId := none
    referenceMessageId := none }

/-- A referenced message authored by a foreign bot (not the bridge's own
client id) whose content carries the web wrapper. -/
def foreignBotRef : RawMessage :=
  { id := "r1"
    author := { id := "otherbot", username := "OtherBot", bot := true }
    content := "**mallory**: hi"
    createdAtISO := "t0"
    attachments := []
    embeds := []
    webhookId := none
    referenceMessageId := none }

/-- A 51-emoji quoted content: 102 UTF-16 code units, so the quoted-reply
truncation cuts it at 100 units (50 characters) and appends an ellipsis. -/
def wEmojiQuote : String :=
  String.mk (List.replicate 51 (Char.ofNat 0x1F600))

/-- A plain user reply referencing `foreignBotRef`. -/
def replyMsg : RawMessage :=
  { id := "m2"
    author := { id := "user9", username := "carol", bot := false }
    content := "reply text"
    createdAtISO := "t2"
    attachments := []
    embeds := []
    webhookId := none
    referenceMessageId := some ("r1") }

/-! ### Helper lemmas -/

theorem sliceLast_eq_rtake (n : Nat) (l : List MessageRecord) :
    sliceLast n l = l.rtake n := rfl

theorem sliceLast_of_le {n : Nat} {l : List MessageRecord} (h : l.length ≤ n) :
    sliceLast n l = l := by
  simp [sliceLast, Nat.sub_eq_zero_of_le h]

theorem length_sliceLast (n : Nat) (l : List MessageRecord) :
    (sliceLast n l).length ≤ n := by
  simp only [sliceLast, List.length_drop]
  omega

theorem take_append_take {α : Type} (n : Nat) (a b : List α) :
    (a ++ b.take n).take n = (a ++ b).take n := by
  rw [List.take_append_eq_append_take, List.take_append_eq_append_take, List.take_take,
    Nat.min_eq_left (Nat.sub_le _ _)]

theorem sliceLast_append_sliceLast (n : Nat) (l l2 : List MessageRecord) :
    sliceLast n (sliceLast n l ++ l2) = sliceLast n (l ++ l2) := by
  rw [sliceLast_eq_rtake, sliceLast_eq_rtake, sliceLast_eq_rtake,
    List.rtake_eq_reverse_take_reverse, List.rtake_eq_reverse_take_reverse,
    List.rtake_eq_reverse_take_reverse, List.reverse_append, List.reverse_append,
    List.reverse_reverse, take_append_take]

theorem appendMessage_length (msgs : List MessageRecord) (m : MessageRecord) :
    (appendMessage msgs m).length ≤ MAX_MESSAGES := by
  simp only [appendMessage]
  split
  · exact length_sliceLast _ _
  · omega

theorem appendMessage_eq (msgs : List MessageRecord) (m : MessageRecord) :
    appendMessage msgs m = sliceLast MAX_MESSAGES (msgs ++ [m]) := by
  simp only [appendMessage]
  split
  · rfl
  · next hlen =>
    rw [sliceLast_of_le]
    omega

theorem foldl_appendMessage_eq (ms : List MessageRecord) :
    ∀ init : List MessageRecord, init.length ≤ MAX_MESSAGES →
      ms.foldl appendMessage init = sliceLast MAX_MESSAGES (init ++ ms) := by
  induction ms with
  | nil =>
    intro init h
    simpa using (sliceLast_of_le h).symm
  | cons m ms ih =>
    intro init h
    rw [List.foldl_cons, ih (appendMessage init m) (appendMessage_length init m),
      appendMessage_eq init m, sliceLast_append_sliceLast]
    simp

theorem normalizeHistory_unwrap (cfg : Config) (msg : RawMessage) (n r : String)
    (hid : msg.author.id = cfg.botClientId)
    (hsw : strStartsWith msg.content ("**") = true)
    (hinc : strIncludes msg.content ("**: ") = true)
    (hm : webFormatMatch msg.content = some (n, r)) :
    normalizeHistory cfg msg =
      { id := msg.id
        author := n
        content := r
        timestamp := msg.createdAtISO
        source := "Web"
        isBot := false
        media := extractMedia msg
        replyTo := none } := by
  simp only [normalizeHistory]
  rw [if_pos ⟨hid, hsw, hinc⟩, hm]

theorem handleSend_ok_noreply (cfg : Config) (msg : String)
    (username : Option String) (password : String) (rfOk : Bool) (now : Nat)
    (nowISO : String) (st : ServerState)
    (hp : password = cfg.chatPassword) (hm : jsTrim msg ≠ "") :
    handleSend cfg (some msg) username password none true rfOk true now nowISO st =
      ⟨{ st with
          typingUsers := mapDelete st.typingUsers (jsOrElse username ("elianka")),
          messages := appendMessage st.messages
            { id := toString now
              author := jsOrElse username ("elianka")
              content := msg
              timestamp := nowISO
              source := "Web"
              isBot := false
              media := []
              replyTo := none } },
        .ok, some (composeOutbound username msg), none⟩ := by
  simp only [handleSend]
  rw [if_neg (fun hh => hh hp), if_neg hm]
  simp

theorem handleSend_ok_reply (cfg : Config) (msg : String)
    (username : Option String) (password : String) (r : ReplyRef) (now : Nat)
    (nowISO : String) (st : ServerState)
    (hp : password = cfg.chatPassword) (hm : jsTrim msg ≠ "") (hid : r.id ≠ "") :
    handleSend cfg (some msg) username password (some r) true true true now nowISO st =
      ⟨{ st with
          typingUsers := mapDelete st.typingUsers (jsOrElse username ("elianka")),
          messages := appendMessage st.messages
            { id := toString now
              author := jsOrElse username ("elianka")
              content := msg
              timestamp := nowISO
              source := "Web"
              isBot := false
              media := []
              replyTo := some r } },
        .ok, some (composeOutbound username msg), some r.id⟩ := by
  simp only [handleSend]
  rw [if_neg (fun hh => hh hp), if_neg hm, if_pos hid]
  simp

theorem handleSend_ok_fallback (cfg : Config) (msg : String)
    (username : Option String) (password : String) (r : ReplyRef) (now : Nat)
    (nowISO : String) (st : ServerState)
    (hp : password = cfg.chatPassword) (hm : jsTrim msg ≠ "") (hid : r.id ≠ "") :
    handleSend cfg (some msg) username password (some r) true false true now nowISO st =
      ⟨{ st with
          typingUsers := mapDelete st.typingUsers (jsOrElse username ("elianka")),
          messages := appendMessage st.messages
            { id := toString now
              author := jsOrElse username ("elianka")
              content := msg
              timestamp := nowISO
              source := "Web"
              isBot := false
              media := []
              replyTo := some r } },
        .ok, some (fallbackContent username r msg), none⟩ := by
  simp only [handleSend]
  rw [if_neg (fun hh => hh hp), if_neg hm, if_pos hid]
  simp

/-! ### Claim theorems -/

/-- C1: for every sequence of appends starting from a history within the
bound, the history always holds at most `MAX_MESSAGES` records, and the
retained records are exactly the most recent `MAX_MESSAGES` of the full
appended sequence in their original relative order (oldest evicted
first). -/
theorem history_bound_fifo (init ms : List MessageRecord)
    (h : init.length ≤ MAX_MESSAGES) :
    (ms.foldl appendMessage init).length ≤ MAX_MESSAGES ∧
    ms.foldl appendMessage init = sliceLast MAX_MESSAGES (init ++ ms) := by
  have he := foldl_appendMessage_eq ms init h
  exact ⟨he ▸ length_sliceLast _ _, he⟩

/-- C1 witness: 101 appends into an empty history stay within the bound
and retain exactly the most recent 100 records. -/
theorem history_bound_fifo_witness :
    ([] : List MessageRecord).length ≤ MAX_MESSAGES ∧
    ((wMsgs.foldl appendMessage []).length ≤ MAX_MESSAGES ∧
      wMsgs.foldl appendMessage [] = sliceLast MAX_MESSAGES ([] ++ wMsgs)) :=
  ⟨by decide, history_bound_fifo [] wMsgs (by decide)⟩

/-- C2: a web message "hello" from "alice" composes the outbound text
`**alice**: hello`; normalizing that text back from the backend with the
author equal to the bridge's own bot identity yields author "alice",
content "hello", source "Web", and isBot = false. -/
theorem username_unwrap_roundtrip (cfg : Config) (st : ServerState) (now : Nat)
    (nowISO mid ts uname : String) (bot : Bool) (atts : List Attachment)
    (embeds : List Embed) (wh : Option String) :
    (handleSend cfg (some ("hello")) (some ("alice")) cfg.chatPassword none
        true true true now nowISO st).outboundContent = some ("**alice**: hello") ∧
    ((normalizeHistory cfg
        { id := mid
          author := { id := cfg.botClientId, username := uname, bot := bot }
          content := "**alice**: hello"
          createdAtISO := ts
          attachments := atts
          embeds := embeds
          webhookId := wh
          referenceMessageId := none }).author = "alice" ∧
      (normalizeHistory cfg
        { id := mid
          author := { id := cfg.botClientId, username := uname, bot := bot }
          content := "**alice**: hello"
          createdAtISO := ts
          attachments := atts
          embeds := embeds
          webhookId := wh
          referenceMessageId := none }).content = "hello" ∧
      (normalizeHistory cfg
        { id := mid
          author := { id := cfg.botClientId, username := uname, bot := bot }
          content := "**alice**: hello"
          createdAtISO := ts
          attachments := atts
          embeds := embeds
          webhookId := wh
          referenceMessageId := none }).source = "Web" ∧
      (normalizeHistory cfg
        { id := mid
          author := { id := cfg.botClientId, username := uname, bot := bot }
          content := "**alice**: hello"
          createdAtISO := ts
          attachments := atts
          embeds := embeds
          webhookId := wh
          referenceMessageId := none }).isBot = false) := by
  have hn := normalizeHistory_unwrap cfg
    { id := mid
      author := { id := cfg.botClientId, username := uname, bot := bot }
      content := "**alice**: hello"
      createdAtISO := ts
      attachments := atts
      embeds := embeds
      webhookId := wh
      referenceMessageId := none }
    ("alice") ("hello") rfl
    (show strStartsWith ("**alice**: hello") ("**") = true by decide)
    (show strIncludes ("**alice**: hello") ("**: ") = true by decide)
    (show webFormatMatch ("**alice**: hello") = some (("alice"), ("hello")) by decide)
  have hs := handleSend_ok_noreply cfg ("hello") (some ("alice")) cfg.chatPassword
    true now nowISO st rfl (by decide)
  refine ⟨?_, ?_, ?_, ?_, ?_⟩
  · rw [hs]
    rfl
  · rw [hn]
  · rw [hn]
  · rw [hn]
  · rw [hn]

/-- C4: on every password-protected endpoint, a request whose password
differs from the configured secret returns the 401 auth error and leaves
the whole state (history, typing table, presence timer) unchanged. -/
theorem auth_mismatch_no_mutation (cfg : Config) (password : String)
    (st : ServerState) (now : Nat) (nowISO : String)
    (username message : Option String) (isTyping : Bool)
    (replyTo : Option ReplyRef) (chOk rfOk sOk : Bool)
    (h : password ≠ cfg.chatPassword) :
    handleMessages cfg password now st = (st, .error 401) ∧
    handleTyping cfg username password isTyping now st = (st, .error 401) ∧
    handlePurge cfg password st = (st, .error 401) ∧
    handleSend cfg message username password replyTo chOk rfOk sOk now nowISO st =
      ⟨st, .error 401, none, none⟩ := by
  refine ⟨?_, ?_, ?_, ?_⟩
  · unfold handleMessages
    rw [if_pos h]
  · unfold handleTyping
    rw [if_pos h]
  · unfold handlePurge
    rw [if_pos h]
  · unfold handleSend
    rw [if_pos h]

/-- C4 witness: a concrete wrong-password request against a concrete state
is rejected with 401 on all four endpoints without mutating anything. -/
theorem auth_mismatch_no_mutation_witness :
    handleMessages wCfg ("wrong") 9999 wSt = (wSt, .error 401) ∧
    handleTyping wCfg (some ("alice")) ("wrong") true 9999 wSt = (wSt, .error 401) ∧
    handlePurge wCfg ("wrong") wSt = (wSt, .error 401) ∧
    handleSend wCfg (some ("hi")) (some ("alice")) ("wrong") none true true true
      9999 ("iso") wSt = ⟨wSt, .error 401, none, none⟩ :=
  auth_mismatch_no_mutation wCfg ("wrong") wSt 9999 ("iso") (some ("alice"))
    (some ("hi")) true none true true true (by decide)

/-- C9: presence is a two-state machine with initial state idle: the poll
issues a status change only on a transition (idle to online when the last
snapshot request is younger than `PRESENCE_TIMEOUT`, online to idle when
it is at least `PRESENCE_TIMEOUT` old), never when the derived state
equals the current one; the poll runs every 10 seconds, and a valid
snapshot request records its time as `lastApiRequest`. -/
theorem presence_two_state (cfg : Config) (st : ServerState) (now : Nat)
    (password : String) (hp : password = cfg.chatPassword) :
    initialIsOnline = false ∧
    POLL_INTERVAL = 10000 ∧
    ((now - st.lastApiRequest < PRESENCE_TIMEOUT ↔ st.isOnline = true) →
      updateBotPresence true now st = (st, none)) ∧
    (st.isOnline = false → now - st.lastApiRequest < PRESENCE_TIMEOUT →
      updateBotPresence true now st = ({ st with isOnline := true }, some .setOnline)) ∧
    (st.isOnline = true → PRESENCE_TIMEOUT ≤ now - st.lastApiRequest →
      updateBotPresence true now st = ({ st with isOnline := false }, some .setDnd)) ∧
    (handleMessages cfg password now st).1.lastApiRequest = now := by
  refine ⟨rfl, rfl, ?_, ?_, ?_, ?_⟩
  · intro hiff
    by_cases hb : st.isOnline = true
    · have hlt : now - st.lastApiRequest < PRESENCE_TIMEOUT := hiff.mpr hb
      simp [updateBotPresence, hb, hlt, Nat.not_le.mpr hlt]
    · have hge : ¬ now - st.lastApiRequest < PRESENCE_TIMEOUT :=
        fun hlt => hb (hiff.mp hlt)
      simp [updateBotPresence, hb, hge]
  · intro hb hlt
    simp [updateBotPresence, hb, hlt]
  · intro hb hge
    simp [updateBotPresence, hb, hge, Nat.not_lt.mpr hge]
  · simp [handleMessages, hp]

/-- C9 witness: a concrete idle state with a recent snapshot request
transitions to online, and a concrete snapshot request stamps the
presence timer. -/
theorem presence_two_state_witness :
    initialIsOnline = false ∧
    POLL_INTERVAL = 10000 ∧
    ((6000 - wSt.lastApiRequest < PRESENCE_TIMEOUT ↔ wSt.isOnline = true) →
      updateBotPresence true 6000 wSt = (wSt, none)) ∧
    (wSt.isOnline = false → 6000 - wSt.lastApiRequest < PRESENCE_TIMEOUT →
      updateBotPresence true 6000 wSt = ({ wSt with isOnline := true }, some .setOnline)) ∧
    (wSt.isOnline = true → PRESENCE_TIMEOUT ≤ 6000 - wSt.lastApiRequest →
      updateBotPresence true 6000 wSt = ({ wSt with isOnline := false }, some .setDnd)) ∧
    (handleMessages wCfg ("pw") 6000 wSt).1.lastApiRequest = 6000 :=
  presence_two_state wCfg wSt 6000 ("pw") (by decide)

/-- C10: a send or typing request with valid password whose username is
absent or empty proceeds under the fallback identity "elianka": it keys
the typing table, prefixes the outbound text, authors the appended local
record, and is the key cleared after a successful send. -/
theorem default_identity (cfg : Config) (uname : Option String)
    (password m : String) (st : ServerState) (now : Nat) (nowISO : String)
    (hu : uname = none ∨ uname = some (""))
    (hp : password = cfg.chatPassword) (hm : jsTrim m ≠ "") :
    handleTyping cfg uname password true now st =
      ({ st with typingUsers := mapSet st.typingUsers ("elianka") now }, .ok) ∧
    handleSend cfg (some m) uname password none true true true now nowISO st =
      ⟨{ st with
          typingUsers := mapDelete st.typingUsers ("elianka"),
          messages := appendMessage st.messages
            { id := toString now
              author := "elianka"
              content := m
              timestamp := nowISO
              source := "Web"
              isBot := false
              media := []
              replyTo := none } },
        .ok, some ("**elianka**: " ++ m), none⟩ := by
  have hj : jsOrElse uname ("elianka") = "elianka" := by
    rcases hu with h | h <;> simp [h, jsOrElse]
  constructor
  · simp [handleTyping, hp, hj]
  · rw [handleSend_ok_noreply cfg m uname password true now nowISO st hp hm]
    simp only [hj, composeOutbound]
    rfl

/-- C10 witness: a concrete empty username is replaced by "elianka"
throughout a typing signal and a successful send. -/
theorem default_identity_witness :
    handleTyping wCfg (some ("")) ("pw") true 8000 wSt =
      ({ wSt with typingUsers := mapSet wSt.typingUsers ("elianka") 8000 }, .ok) ∧
    handleSend wCfg (some ("hi")) (some ("")) ("pw") none true true true 8000 ("iso") wSt =
      ⟨{ wSt with
          typingUsers := mapDelete wSt.typingUsers ("elianka"),
          messages := appendMessage wSt.messages
            { id := toString 8000
              author := "elianka"
              content := "hi"
              timestamp := "iso"
              source := "Web"
              isBot := false
              media := []
              replyTo := none } },
        .ok, some ("**elianka**: " ++ "hi"), none⟩ :=
  default_identity wCfg (some ("")) ("pw") ("hi") wSt 8000 ("iso")
    (Or.inr rfl) (by decide) (by decide)

/-- C7: a valid send whose `replyTo.id` cannot be fetched still succeeds
and degrades the outbound text to the inline quoted fallback, with the
quote truncated to its first 100 UTF-16 code units and an ellipsis
exactly when the quoted content exceeds 100 code units (the final
hypothesis excludes the boundary case where the cut would split a
surrogate pair, which leaves a lone surrogate no scalar string can
carry); when
the fetch succeeds the outbound text stays `**author**: content` and a
native reply reference is attached. -/
theorem reply_fallback (cfg : Config) (uname : Option String)
    (m password : String) (r : ReplyRef) (st : ServerState) (now : Nat)
    (nowISO : String) (hp : password = cfg.chatPassword)
    (hm : jsTrim m ≠ "") (hid : r.id ≠ "")
    (_hcut : strUtf16Len (String.mk (takeUnits 100 r.content.toList)) =
      Nat.min 100 (strUtf16Len r.content)) :
    (handleSend cfg (some m) uname password (some r) true false true now nowISO st).response = .ok ∧
    (handleSend cfg (some m) uname password (some r) true false true now nowISO st).outboundContent =
      some ("**" ++ jsOrElse uname ("elianka") ++ "** replying to **" ++ r.author ++
        "**: \"" ++
        (String.mk (takeUnits 100 r.content.toList) ++
          (if strUtf16Len r.content > 100 then ("...") else (""))) ++
        "\"\n" ++ m) ∧
    (handleSend cfg (some m) uname password (some r) true false true now nowISO st).outboundReplyRef = none ∧
    (handleSend cfg (some m) uname password (some r) true true true now nowISO st).response = .ok ∧
    (handleSend cfg (some m) uname password (some r) true true true now nowISO st).outboundContent =
      some ("**" ++ jsOrElse uname ("elianka") ++ "**: " ++ m) ∧
    (handleSend cfg (some m) uname password (some r) true true true now nowISO st).outboundReplyRef =
      some r.id := by
  have hf := handleSend_ok_fallback cfg m uname password r now nowISO st hp hm hid
  have hk := handleSend_ok_reply cfg m uname password r now nowISO st hp hm hid
  refine ⟨?_, ?_, ?_, ?_, ?_, ?_⟩
  · rw [hf]
  · rw [hf]
    rfl
  · rw [hf]
  · rw [hk]
  · rw [hk]
    rfl
  · rw [hk]

/-- C7 witness: a concrete failed reply fetch quoting a 102-code-unit
emoji content produces the fallback truncated at 100 code units with the
ellipsis and still reports success; the same send with a successful
fetch keeps the plain wrapper and attaches the reference. -/
theorem reply_fallback_witness :
    (handleSend wCfg (some ("yo")) (some ("alice")) ("pw")
        (some { id := "55", author := "bob", content := wEmojiQuote, timestamp := "t" })
        true false true 8000 ("iso") wSt).response = .ok ∧
    (handleSend wCfg (some ("yo")) (some ("alice")) ("pw")
        (some { id := "55", author := "bob", content := wEmojiQuote, timestamp := "t" })
        true false true 8000 ("iso") wSt).outboundContent =
      some ("**" ++ jsOrElse (some ("alice")) ("elianka") ++ "** replying to **" ++ "bob" ++
        "**: \"" ++
        (String.mk (takeUnits 100 wEmojiQuote.toList) ++
          (if strUtf16Len wEmojiQuote > 100 then ("...") else (""))) ++
        "\"\n" ++ "yo") ∧
    (handleSend wCfg (some ("yo")) (some ("alice")) ("pw")
        (some { id := "55", author := "bob", content := wEmojiQuote, timestamp := "t" })
        true false true 8000 ("iso") wSt).outboundReplyRef = none ∧
    (handleSend wCfg (some ("yo")) (some ("alice")) ("pw")
        (some { id := "55", author := "bob", content := wEmojiQuote, timestamp := "t" })
        true true true 8000 ("iso") wSt).response = .ok ∧
    (handleSend wCfg (some ("yo")) (some ("alice")) ("pw")
        (some { id := "55", author := "bob", content := wEmojiQuote, timestamp := "t" })
        true true true 8000 ("iso") wSt).outboundContent =
      some ("**" ++ jsOrElse (some ("alice")) ("elianka") ++ "**: " ++ "yo") ∧
    (handleSend wCfg (some ("yo")) (some ("alice")) ("pw")
        (some { id := "55", author := "bob", content := wEmojiQuote, timestamp := "t" })
        true true true 8000 ("iso") wSt).outboundReplyRef =
      some ({ id := "55", author := "bob", content := wEmojiQuote, timestamp := "t" } : ReplyRef).id :=
  reply_fallback wCfg (some ("alice")) ("yo") ("pw")
    { id := "55", author := "bob", content := wEmojiQuote, timestamp := "t" }
    wSt 8000 ("iso") (by decide) (by decide) (by decide) (by decide)

theorem removeBots_spec (l : List MessageRecord) :
    ∀ n : Nat,
      (removeBots n l).2 = Nat.min n (l.countP (fun m => m.isBot)) ∧
      (removeBots n l).1.filter (fun m => !m.isBot) = l.filter (fun m => !m.isBot) ∧
      (removeBots n l).1.length = l.length - Nat.min n (l.countP (fun m => m.isBot)) ∧
      (removeBots n l).1.filter (fun m => m.isBot) =
        (l.filter (fun m => m.isBot)).drop n := by
  induction l with
  | nil =>
    intro n
    simp [removeBots]
  | cons m rest ih =>
    intro n
    match n with
    | 0 =>
      simp [removeBots]
    | k + 1 =>
      have hcle := List.countP_le_length (fun m => m.isBot) (l := rest)
      cases hb : m.isBot with
      | true =>
        rcases hrb : removeBots k rest with ⟨l1, c1⟩
        have ihk := ih k
        rw [hrb] at ihk
        obtain ⟨ih1, ih2, ih3, ih4⟩ := ihk
        have h1 : removeBots (k + 1) (m :: rest) = (l1, c1 + 1) := by
          simp [removeBots, hb, hrb]
        rw [h1]
        have hc : (m :: rest).countP (fun m => m.isBot) =
            rest.countP (fun m => m.isBot) + 1 := by
          simp [List.countP_cons, hb]
        refine ⟨?_, ?_, ?_, ?_⟩
        · show c1 + 1 = Nat.min (k + 1) ((m :: rest).countP (fun m => m.isBot))
          rw [hc]
          simp only [Nat.min_def] at ih1 ⊢
          split_ifs at ih1 ⊢ <;> omega
        · simp [List.filter_cons, hb]
          simpa using ih2
        · show l1.length =
            (m :: rest).length - Nat.min (k + 1) ((m :: rest).countP (fun m => m.isBot))
          rw [hc, List.length_cons]
          simp only [Nat.min_def] at ih3 ⊢
          split_ifs at ih3 ⊢ <;> omega
        · simp [List.filter_cons, hb, List.drop_succ_cons]
          simpa using ih4
      | false =>
        rcases hrb : removeBots (k + 1) rest with ⟨l1, c1⟩
        have ihk := ih (k + 1)
        rw [hrb] at ihk
        obtain ⟨ih1, ih2, ih3, ih4⟩ := ihk
        have h1 : removeBots (k + 1) (m :: rest) = (m :: l1, c1) := by
          simp [removeBots, hb, hrb]
        rw [h1]
        have hc : (m :: rest).countP (fun m => m.isBot) =
            rest.countP (fun m => m.isBot) := by
          simp [List.countP_cons, hb]
        refine ⟨?_, ?_, ?_, ?_⟩
        · show c1 = Nat.min (k + 1) ((m :: rest).countP (fun m => m.isBot))
          rw [hc]
          exact ih1
        · simp [List.filter_cons, hb]
          simpa using ih2
        · show (m :: l1).length =
            (m :: rest).length - Nat.min (k + 1) ((m :: rest).countP (fun m => m.isBot))
          rw [hc, List.length_cons, List.length_cons]
          simp only [Nat.min_def] at ih3 ⊢
          split_ifs at ih3 ⊢ <;> omega
        · simp [List.filter_cons, hb]
          simpa using ih4

/-- C3: purge with the correct password returns exactly the number of
removed bot records, which is the newest `min 100 (number of bot
records)`; every non-bot record is untouched and keeps its relative
order, the history shrinks by exactly the removed count, and only the
oldest surplus bot records survive; the rest of the state is unchanged. -/
theorem purge_spec (cfg : Config) (password : String) (st : ServerState)
    (hp : password = cfg.chatPassword) :
    (handlePurge cfg password st).2 =
      .purged (Nat.min 100 (st.messages.countP (fun m => m.isBot))) ∧
    (handlePurge cfg password st).1.messages.filter (fun m => !m.isBot) =
      st.messages.filter (fun m => !m.isBot) ∧
    (handlePurge cfg password st).1.messages.length =
      st.messages.length - Nat.min 100 (st.messages.countP (fun m => m.isBot)) ∧
    (handlePurge cfg password st).1.messages.filter (fun m => m.isBot) =
      (st.messages.filter (fun m => m.isBot)).take
        (st.messages.countP (fun m => m.isBot) - 100) ∧
    (handlePurge cfg password st).1.typingUsers = st.typingUsers ∧
    (handlePurge cfg password st).1.lastApiRequest = st.lastApiRequest := by
  rcases hrb : removeBots 100 st.messages.reverse with ⟨l1, c1⟩
  have hspec := removeBots_spec st.messages.reverse 100
  rw [hrb] at hspec
  have hs1 : c1 = Nat.min 100 (st.messages.reverse.countP (fun m => m.isBot)) := hspec.1
  have hs2 : l1.filter (fun m => !m.isBot) =
      st.messages.reverse.filter (fun m => !m.isBot) := hspec.2.1
  have hs3 : l1.length =
      st.messages.reverse.length -
        Nat.min 100 (st.messages.reverse.countP (fun m => m.isBot)) := hspec.2.2.1
  have hs4 : l1.filter (fun m => m.isBot) =
      (st.messages.reverse.filter (fun m => m.isBot)).drop 100 := hspec.2.2.2
  have hpur : purgeBotMessages st.messages = (l1.reverse, c1) := by
    simp [purgeBotMessages, hrb]
  have hh : handlePurge cfg password st =
      ({ st with messages := l1.reverse }, .purged c1) := by
    simp [handlePurge, hp, hpur]
  have hcnt : st.messages.reverse.countP (fun m => m.isBot) =
      st.messages.countP (fun m => m.isBot) := List.countP_reverse ..
  refine ⟨?_, ?_, ?_, ?_, ?_, ?_⟩
  · rw [hh]
    show ApiResponse.purged c1 = _
    rw [hs1, hcnt]
  · rw [hh]
    show l1.reverse.filter (fun m => !m.isBot) = _
    rw [List.filter_reverse, hs2, List.filter_reverse, List.reverse_reverse]
  · rw [hh]
    show l1.reverse.length = _
    rw [List.length_reverse, hs3, List.length_reverse, hcnt]
  · rw [hh]
    show l1.reverse.filter (fun m => m.isBot) = _
    rw [List.filter_reverse, hs4, List.filter_reverse]
    rw [show (((st.messages.filter (fun m => m.isBot)).reverse).drop 100).reverse =
        (st.messages.filter (fun m => m.isBot)).rdrop 100 from
      (List.rdrop_eq_reverse_drop_reverse ..).symm]
    rw [List.rdrop, List.countP_eq_length_filter]
  · rw [hh]
  · rw [hh]

/-- C3 witness: purging a concrete four-record history with two bot
records removes both, preserves the two non-bot records in order, and
reports the exact count. -/
theorem purge_spec_witness :
    (handlePurge wCfg ("pw") wSt).2 =
      .purged (Nat.min 100 (wSt.messages.countP (fun m => m.isBot))) ∧
    (handlePurge wCfg ("pw") wSt).1.messages.filter (fun m => !m.isBot) =
      wSt.messages.filter (fun m => !m.isBot) ∧
    (handlePurge wCfg ("pw") wSt).1.messages.length =
      wSt.messages.length - Nat.min 100 (wSt.messages.countP (fun m => m.isBot)) ∧
    (handlePurge wCfg ("pw") wSt).1.messages.filter (fun m => m.isBot) =
      (wSt.messages.filter (fun m => m.isBot)).take
        (wSt.messages.countP (fun m => m.isBot) - 100) ∧
    (handlePurge wCfg ("pw") wSt).1.typingUsers = wSt.typingUsers ∧
    (handlePurge wCfg ("pw") wSt).1.lastApiRequest = wSt.lastApiRequest :=
  purge_spec wCfg ("pw") wSt (by decide)

theorem mapGet_mapDelete (l : List (String × Nat)) (k : String) :
    mapGet (mapDelete l k) k = none := by
  unfold mapGet mapDelete
  rw [Option.map_eq_none']
  rw [List.find?_eq_none]
  intro x hx
  have hne := (List.mem_filter.mp hx).2
  simp only [bne_iff_ne, ne_eq] at hne
  simpa [beq_iff_eq] using hne

theorem mapGet_key_unique (l : List (String × Nat)) (u : String) (T : Nat)
    (hnd : (l.map Prod.fst).Nodup) (hget : mapGet l u = some T) :
    ∀ p ∈ l, p.1 = u → p = (u, T) := by
  unfold mapGet at hget
  obtain ⟨q, hq, hq2⟩ := Option.map_eq_some'.mp hget
  have hqe : q.1 = u := by
    have hs := List.find?_some hq
    simpa [beq_iff_eq] using hs
  have hqm : q ∈ l := List.mem_of_find?_eq_some hq
  intro p hp hpu
  have hpq : p = q := by
    have hinj := List.inj_on_of_nodup_map hnd
    exact hinj hp hqm (by rw [hpu, hqe])
  rw [hpq]
  exact Prod.ext hqe hq2

/-- C5: a typing entry recorded at time `T` and never refreshed is absent
from the `/api/messages` snapshot at any time at or after
`T + TYPING_TIMEOUT`, both from the reported list and from the swept
table; `isTyping=false` removes the entry immediately; a successful send
clears the sender's entry; and the delayed expiry timer deletes an entry
only when its stored timestamp is at least `TYPING_TIMEOUT - 100` old at
fire time. -/
theorem typing_expiry (cfg : Config) (st : ServerState) (u : String)
    (T now : Nat) (password : String) (uname : Option String) (m : String)
    (u2 : String) (ts fireNow : Nat) (nowISO : String)
    (hp : password = cfg.chatPassword)
    (hnd : (st.typingUsers.map Prod.fst).Nodup)
    (hget : mapGet st.typingUsers u = some T)
    (hnow : T + TYPING_TIMEOUT ≤ now)
    (hm : jsTrim m ≠ "")
    (hts : mapGet st.typingUsers u2 = some ts)
    (hfresh : fireNow - ts < TYPING_TIMEOUT - 100) :
    (u ∈ sweepActive st.typingUsers now → False) ∧
    mapGet (handleMessages cfg password now st).1.typingUsers u = none ∧
    mapGet (handleTyping cfg uname password false now st).1.typingUsers
      (jsOrElse uname ("elianka")) = none ∧
    mapGet (handleSend cfg (some m) uname password none true true true
      now nowISO st).state.typingUsers (jsOrElse uname ("elianka")) = none ∧
    typingTimerFire u2 fireNow st = st := by
  have huniq := mapGet_key_unique st.typingUsers u T hnd hget
  have hexp : ∀ p ∈ st.typingUsers, p.1 = u → ¬ (now - p.2 < 5000) := by
    intro p hpmem hpu
    have hpe := huniq p hpmem hpu
    rw [hpe]
    show ¬ (now - T < 5000)
    have h5 : TYPING_TIMEOUT = 5000 := rfl
    omega
  refine ⟨?_, ?_, ?_, ?_, ?_⟩
  · intro hmem
    obtain ⟨p, hp1, hp2⟩ := List.mem_map.mp hmem
    have hpf := List.mem_filter.mp hp1
    have hlt := of_decide_eq_true hpf.2
    exact hexp p hpf.1 hp2 hlt
  · have hstep : (handleMessages cfg password now st).1.typingUsers =
        sweepTyping st.typingUsers now := by
      simp [handleMessages, hp]
    rw [hstep]
    unfold mapGet sweepTyping
    rw [Option.map_eq_none', List.find?_eq_none]
    intro x hx
    have hxf := List.mem_filter.mp hx
    intro hxk
    exact hexp x hxf.1 (by simpa [beq_iff_eq] using hxk)
      (of_decide_eq_true hxf.2)
  · have hstep : (handleTyping cfg uname password false now st).1.typingUsers =
        mapDelete st.typingUsers (jsOrElse uname ("elianka")) := by
      simp [handleTyping, hp]
    rw [hstep]
    exact mapGet_mapDelete ..
  · rw [handleSend_ok_noreply cfg m uname password true now nowISO st hp hm]
    exact mapGet_mapDelete ..
  · unfold typingTimerFire
    rw [hts]
    show (if ts ≠ 0 ∧ fireNow - ts ≥ TYPING_TIMEOUT - 100 then
        { st with typingUsers := mapDelete st.typingUsers u2 } else st) = st
    have hneg : ¬ (ts ≠ 0 ∧ fireNow - ts ≥ TYPING_TIMEOUT - 100) := by
      intro hc
      have h5 : TYPING_TIMEOUT = 5000 := rfl
      omega
    rw [if_neg hneg]

/-- C5 witness: a concrete entry from time 1000 is gone from the snapshot
at time 6000, a concrete `isTyping=false` and a concrete send clear their
keys, and a concrete timer firing 100 ms after a refreshed stamp does not
delete it. -/
theorem typing_expiry_witness :
    (("alice") ∈ sweepActive wSt.typingUsers 6000 → False) ∧
    mapGet (handleMessages wCfg ("pw") 6000 wSt).1.typingUsers ("alice") = none ∧
    mapGet (handleTyping wCfg (some ("bob")) ("pw") false 6000 wSt).1.typingUsers
      (jsOrElse (some ("bob")) ("elianka")) = none ∧
    mapGet (handleSend wCfg (some ("hi")) (some ("bob")) ("pw") none true true true
      6000 ("iso") wSt).state.typingUsers (jsOrElse (some ("bob")) ("elianka")) = none ∧
    typingTimerFire ("bob") 7100 wSt = wSt :=
  typing_expiry wCfg wSt ("alice") 1000 6000 ("pw") (some ("bob")) ("hi")
    ("bob") 7000 7100 ("iso") (by decide) (by decide) (by decide) (by decide)
    (by decide) (by decide) (by decide)

/-- C6: the concrete message with one image attachment, one embed bearing
a thumbnail, and `https://x.com/a.png` in its body yields exactly three
media entries ordered attachments, embeds, body matches; in general the
list is the concatenation in that order with no de-duplication, an embed
contributes its image before its thumbnail, attachments count only when
their content type starts with `image/`, and repeated body URLs are kept
repeated. -/
theorem media_extraction_spec :
    extractMedia mediaMsg =
      [{ url := "https://cdn/att.png", type := "image", filename := "att.png" },
       { url := "https://emb/t.png", type := "image", filename := "thumbnail" },
       { url := "https://x.com/a.png", type := "image", filename := "linked_image" }] ∧
    (∀ msg : RawMessage, extractMedia msg =
      attachmentMedia msg.attachments ++ embedMedia msg.embeds ++ urlMedia msg.content) ∧
    (∀ u1 u2 : String,
      embedMedia [{ image := some { url := u1 }, thumbnail := some { url := u2 } }] =
        [{ url := u1, type := "image", filename := "embedded_image" },
         { url := u2, type := "image", filename := "thumbnail" }]) ∧
    (∀ u n : String,
      attachmentMedia [{ contentType := some ("image/png"), url := u, name := n }] =
        [{ url := u, type := "image", filename := n }]) ∧
    (∀ u n : String,
      attachmentMedia [{ contentType := some ("text/plain"), url := u, name := n }] = []) ∧
    (∀ u n : String,
      attachmentMedia [{ contentType := none, url := u, name := n }] = []) ∧
    urlMedia ("https://x.com/a.png https://x.com/a.png") =
      [{ url := "https://x.com/a.png", type := "image", filename := "linked_image" },
       { url := "https://x.com/a.png", type := "image", filename := "linked_image" }] := by
  refine ⟨by decide, fun msg => rfl, fun u1 u2 => rfl, fun u n => rfl,
    fun u n => rfl, fun u n => rfl, by decide⟩

theorem takeWhile_append_stop (p : Char → Bool) (l1 : List Char) (c : Char)
    (l2 : List Char) (h : ∀ x ∈ l1, p x = true) (hc : p c = false) :
    (l1 ++ c :: l2).takeWhile p = l1 ∧ (l1 ++ c :: l2).dropWhile p = c :: l2 := by
  induction l1 with
  | nil => simp [List.takeWhile_cons, List.dropWhile_cons, hc]
  | cons a l1 ih =>
    have ha : p a = true := h a (by simp)
    have hrest : ∀ x ∈ l1, p x = true := fun x hx => h x (by simp [hx])
    obtain ⟨ht, hd⟩ := ih hrest
    constructor
    · simp [List.takeWhile_cons, ha, ht]
    · simp [List.dropWhile_cons, ha, hd]

theorem takeWhile_all (p : Char → Bool) (l : List Char)
    (h : ∀ x ∈ l, p x = true) : l.takeWhile p = l := by
  induction l with
  | nil => rfl
  | cons a l ih =>
    simp [List.takeWhile_cons, h a (by simp),
      ih (fun x hx => h x (by simp [hx]))]

theorem replyRegexMatch_wrap (name rest : String)
    (hname : name.toList ≠ [])
    (hstar : ∀ x ∈ name.toList, x ≠ '*')
    (hnl : ∀ x ∈ rest.toList, isJsDotExcluded x = false) :
    replyRegexMatch ("**" ++ name ++ "**: " ++ rest) = some (name, rest) := by
  have hdata : ("**" ++ name ++ "**: " ++ rest).toList =
      '*' :: '*' :: (name.toList ++ ('*' :: '*' :: ':' :: ' ' :: rest.toList)) := by
    simp [String.toList]
  have hsplit := takeWhile_append_stop (fun c => decide (c ≠ '*'))
    name.toList '*' ('*' :: ':' :: ' ' :: rest.toList)
    (fun x hx => by simpa using hstar x hx) (by decide)
  have hall := takeWhile_all (fun c => !(isJsDotExcluded c)) rest.toList
    (fun x hx => by simp [hnl x hx])
  simp only [replyRegexMatch, hdata]
  rw [hsplit.1, hsplit.2]
  rw [if_neg (by simpa [List.isEmpty_iff] using hname)]
  show some ((String.mk name.toList),
      (String.mk (List.takeWhile (fun c => !(isJsDotExcluded c)) rest.toList))) =
    some (name, rest)
  rw [hall]
  rfl

theorem strStartsWith_wrap (name rest : String) :
    strStartsWith ("**" ++ name ++ "**: " ++ rest) ("**") = true := by
  have hdata : ("**" ++ name ++ "**: " ++ rest).toList =
      '*' :: '*' :: (name.toList ++ ('*' :: '*' :: ':' :: ' ' :: rest.toList)) := by
    simp [String.toList]
  simp [strStartsWith, hdata, List.isPrefixOf]

/-- C8 counterexample: a referenced message authored by a foreign bot
(author id different from the bridge's own client id) whose content is
`**mallory**: hi` still gets its author and content rewritten, so the
unwrap is not applied "exactly when its author is the bridge's own bot
identity"; moreover the reply pattern differs from the top-level one:
`**a**: ` (empty remainder) matches the reply pattern but not the
top-level one. -/
theorem replyto_unwrap_counterexample :
    foreignBotRef.author.id ≠ wCfg.botClientId ∧
    (normalizeInbound wCfg replyMsg (some foreignBotRef) ("t3")).map
        (fun r => r.replyTo) =
      some (some { id := "r1", author := "mallory", content := "hi",
                   timestamp := "t0" }) ∧
    webFormatMatch ("**a**: ") = none ∧
    replyRegexMatch ("**a**: ") = some (("a"), ("")) := by
  decide

/-- C8 (amended): the `replyTo` unwrap is applied exactly when the
referenced message's author is bot-flagged (any bot, not only the
bridge's own identity), its content starts with `**`, and it matches
`**<name>**: <rest>` with `<name>` non-empty and star-free and `<rest>`
the possibly empty run of characters up to the first line terminator
(`\n`, `\r`, U+2028 or U+2029); in every other case — non-bot author,
content not starting with `**`, or content not matching the pattern —
the referenced author and content are kept verbatim; a failed
referenced-message fetch leaves `replyTo` null without failing
normalization. -/
theorem replyto_unwrap_amended (cfg : Config) (msg ref : RawMessage)
    (nowISO name rest : String)
    (hskip : msg.author.id ≠ cfg.botClientId)
    (hbot : ref.author.bot = true)
    (hname : name.toList ≠ [])
    (hstar : ∀ x ∈ name.toList, x ≠ '*')
    (hnl : ∀ x ∈ rest.toList, isJsDotExcluded x = false)
    (hcontent : ref.content = "**" ++ name ++ "**: " ++ rest) :
    (∃ r : MessageRecord, normalizeInbound cfg msg none nowISO = some r ∧
      r.replyTo = none) ∧
    (truthyOpt msg.referenceMessageId = true →
      ∀ r : MessageRecord, normalizeInbound cfg msg (some ref) nowISO = some r →
        r.replyTo = some { id := ref.id, author := name, content := rest,
                           timestamp := ref.createdAtISO }) ∧
    (∀ other : RawMessage, other.author.bot = false →
      unwrapReplyRef other = (other.author.username, other.content)) ∧
    (∀ other : RawMessage, strStartsWith other.content ("**") = false →
      unwrapReplyRef other = (other.author.username, other.content)) ∧
    (∀ other : RawMessage, replyRegexMatch other.content = none →
      unwrapReplyRef other = (other.author.username, other.content)) := by
  have hunwrap : unwrapReplyRef ref = (name, rest) := by
    unfold unwrapReplyRef
    rw [if_pos ⟨hbot, by rw [hcontent]; exact strStartsWith_wrap name rest⟩]
    rw [hcontent, replyRegexMatch_wrap name rest hname hstar hnl]
  refine ⟨?_, ?_, ?_, ?_, ?_⟩
  · unfold normalizeInbound
    rw [if_neg hskip]
    refine ⟨_, rfl, ?_⟩
    show (if truthyOpt msg.referenceMessageId then buildReplyTo none else none) = none
    simp [buildReplyTo]
  · intro htr r hr
    unfold normalizeInbound at hr
    rw [if_neg hskip] at hr
    have hr' := (Option.some.injEq ..).mp hr
    rw [← hr']
    show (if truthyOpt msg.referenceMessageId then buildReplyTo (some ref) else none) = _
    rw [if_pos htr]
    have hb2 : buildReplyTo (some ref) =
        some { id := ref.id
               author := name
               content := rest
               timestamp := ref.createdAtISO } := by
      simp only [buildReplyTo]
      rw [hunwrap]
    exact hb2
  · intro other hob
    unfold unwrapReplyRef
    rw [if_neg]
    intro hc
    rw [hob] at hc
    exact Bool.false_ne_true hc.1
  · intro other hsw
    unfold unwrapReplyRef
    rw [if_neg]
    intro hc
    rw [hsw] at hc
    exact Bool.false_ne_true hc.2
  · intro other hrm
    unfold unwrapReplyRef
    by_cases hcnd : other.author.bot = true ∧ strStartsWith other.content ("**") = true
    · rw [if_pos hcnd, hrm]
    · rw [if_neg hcnd]

/-- C8 amended witness: the foreign-bot referenced message `**mallory**:
hi` is unwrapped to author "mallory" and content "hi", a failed fetch
leaves `replyTo` null, and a referenced message with a non-bot author,
with content not starting with `**`, or with content not matching the
pattern is kept verbatim. -/
theorem replyto_unwrap_amended_witness :
    (∃ r : MessageRecord, normalizeInbound wCfg replyMsg none ("t3") = some r ∧
      r.replyTo = none) ∧
    (truthyOpt replyMsg.referenceMessageId = true →
      ∀ r : MessageRecord,
        normalizeInbound wCfg replyMsg (some foreignBotRef) ("t3") = some r →
          r.replyTo = some { id := foreignBotRef.id, author := "mallory",
                             content := "hi",
                             timestamp := foreignBotRef.createdAtISO }) ∧
    (∀ other : RawMessage, other.author.bot = false →
      unwrapReplyRef other = (other.author.username, other.content)) ∧
    (∀ other : RawMessage, strStartsWith other.content ("**") = false →
      unwrapReplyRef other = (other.author.username, other.content)) ∧
    (∀ other : RawMessage, replyRegexMatch other.content = none →
      unwrapReplyRef other = (other.author.username, other.content)) :=
  replyto_unwrap_amended wCfg replyMsg foreignBotRef ("t3") ("mallory") ("hi")
    (by decide) (by decide) (by decide) (by decide) (by decide) (by decide)

end Bridge
